import Mathlib

/-!
Shallow embedding of `flink_scrat/job_manager_connector.py`
(`FlinkJobmanagerConnector`).  Remote HTTP calls are modelled as explicit
inputs: every call that goes through `handle_response` (the `requests` call
followed by `raise_for_status` and `.json()`) is an `Except HttpFailure α`
value, where `HttpFailure` stands for a `requests.exceptions.HTTPError`
raised on a non-success status.  The polled endpoints
(`savepoint_trigger_info`, `job_info`) are oracles `Nat → Except PyError _`
indexed by the attempt number.  `time.sleep` calls are counted, not
performed: the poll loops return a `PollTrace` which records the result,
the number of checks made and the number of sleeps performed.
-/

namespace FlinkScrat

/-- A non-success HTTP response: `requests` raises `HTTPError` from
`raise_for_status`; `e.response.text` and the status code are what the
connector reads off it. -/
structure HttpFailure where
  status : Nat
  text : String
deriving DecidableEq, Repr

/-- The exceptions the connector can raise (from `flink_scrat.exceptions`,
plus the Python built-ins `KeyError`/`ValueError`/`Exception` and the
`requests` `HTTPError` itself). -/
inductive PyError where
  | httpError (text : String)
  | failedSavepoint (stackTrace : String)
  | maxRetriesReached (msg : String)
  | notValidJAR (msg : String)
  | jobRunFailed (msg : String)
  | jobIdNotFound (msg : String)
  | keyError (key : String)
  | valueError (msg : String)
  | genericError (msg : String)
deriving DecidableEq, Repr

/-- Model of `trigger_info['operation']['failure-cause']` — a dict holding the
remote `stack-trace`. -/
structure FailureCause where
  stackTrace : String
deriving DecidableEq, Repr

/-- Model of `trigger_info['operation']`: on terminal status it holds either a
`failure-cause` or a `location` (fields absent from the JSON are `none`). -/
structure SavepointOperation where
  failureCause : Option FailureCause
  location : Option String
deriving DecidableEq, Repr

/-- The savepoint-status response: `status.id` plus the `operation` dict. -/
structure TriggerInfo where
  statusId : String
  operation : SavepointOperation
deriving DecidableEq, Repr

/-- The `job_info` response: the `state` field is all the connector reads. -/
structure JobInfo where
  state : String
deriving DecidableEq, Repr

instance {ε α : Type} [DecidableEq ε] [DecidableEq α] : DecidableEq (Except ε α)
  | .error a, .error b =>
    if h : a = b then .isTrue (by rw [h]) else .isFalse (by simp [h])
  | .error _, .ok _ => .isFalse (by simp)
  | .ok _, .error _ => .isFalse (by simp)
  | .ok a, .ok b =>
    if h : a = b then .isTrue (by rw [h]) else .isFalse (by simp [h])

/-- Result of a polling loop: the value or exception, the number of remote
checks made, and the number of `time.sleep` calls performed. -/
structure PollTrace (α : Type) where
  result : Except PyError α
  attempts : Nat
  sleeps : Nat
deriving DecidableEq, Repr

/-- The loop body of `_await_savepoint_completion`: `remaining` counts the
iterations left of `for try_num in range(0, max_retries)`; the oracle is
re-indexed on recursion so `info 0` is always the current attempt's
`savepoint_trigger_info` response.  On `IN_PROGRESS` the loop sleeps and
continues; on a terminal status it raises `FailedSavepointException` with
the remote stack trace when `failure-cause` is present, else returns
`operation['location']` (a missing key would be a `KeyError`, as in
Python).  An `HTTPError` from the status call propagates out of the loop. -/
def awaitSpLoop (maxRetries : Nat) (info : Nat → Except PyError TriggerInfo) :
    Nat → PollTrace String
  | 0 =>
    ⟨.error (.maxRetriesReached
        s!"Savepoint was not completed in time. Max retries=<{maxRetries}> reached"),
      0, 0⟩
  | remaining + 1 =>
    match info 0 with
    | .error e => ⟨.error e, 1, 0⟩
    | .ok ti =>
      if ti.statusId = "IN_PROGRESS" then
        let rest := awaitSpLoop maxRetries (fun n => info (n + 1)) remaining
        ⟨rest.result, rest.attempts + 1, rest.sleeps + 1⟩
      else
        match ti.operation.failureCause with
        | some fc => ⟨.error (.failedSavepoint fc.stackTrace), 1, 0⟩
        | none =>
          match ti.operation.location with
          | some loc => ⟨.ok loc, 1, 0⟩
          | none => ⟨.error (.keyError "location"), 1, 0⟩

/-- Model of `_await_savepoint_completion(job_id, request_id, max_retries=20,
retry_sleep_seconds=2)`.  `job_id`/`request_id` only route the polled URL,
which the oracle already captures; `retry_sleep_seconds` only scales each
counted sleep. -/
def awaitSavepointCompletion (info : Nat → Except PyError TriggerInfo)
    (maxRetries : Nat := 20) (_retrySleepSeconds : Nat := 2) : PollTrace String :=
  awaitSpLoop maxRetries info maxRetries

/-- The loop body of `_await_job_termination`: pending (sleep) while
`job_info['state'] == "RUNNING"`, returns `True` on any other state; an
`HTTPError` from `job_info` propagates out of the loop. -/
def awaitTermLoop (jobId : String) (maxRetries : Nat)
    (info : Nat → Except PyError JobInfo) : Nat → PollTrace Bool
  | 0 =>
    ⟨.error (.maxRetriesReached
        s!"Job=<{jobId}> could not be canceled in time. Max retries=<{maxRetries}> reached"),
      0, 0⟩
  | remaining + 1 =>
    match info 0 with
    | .error e => ⟨.error e, 1, 0⟩
    | .ok ji =>
      if ji.state = "RUNNING" then
        let rest := awaitTermLoop jobId maxRetries (fun n => info (n + 1)) remaining
        ⟨rest.result, rest.attempts + 1, rest.sleeps + 1⟩
      else ⟨.ok true, 1, 0⟩

/-- Model of `_await_job_termination(job_id, max_retries=20, retry_sleep_seconds=2)`. -/
def awaitJobTermination (jobId : String) (info : Nat → Except PyError JobInfo)
    (maxRetries : Nat := 20) (_retrySleepSeconds : Nat := 2) : PollTrace Bool :=
  awaitTermLoop jobId maxRetries info maxRetries

/-- Response of `POST /jobs/{id}/savepoints/`: the `request-id` field. -/
structure SavepointTriggerResp where
  requestId : String
deriving DecidableEq, Repr

/-- Model of `trigger_savepoint(job_id, target_dir, cancel_job=False)`.  The whole
body — the trigger POST *and* the `_await_savepoint_completion` call — sits
inside one `try`, so an `HTTPError` raised by either is re-raised as
`JobIdNotFoundException`; other exceptions (`FailedSavepointException`,
`MaxRetriesReachedException`) propagate.  (If the POST succeeded,
`response` is the parsed JSON object, never `None`, so the
`if response is not None` guard holds and the function returns the awaited
savepoint path.) -/
def trigger_savepoint (jobId _targetDir : String) (_cancelJob : Bool)
    (postResp : Except HttpFailure SavepointTriggerResp)
    (spInfo : Nat → Except PyError TriggerInfo) : Except PyError String :=
  let body : Except PyError String :=
    match postResp with
    | .error f => .error (.httpError f.text)
    | .ok _resp => (awaitSavepointCompletion spInfo).result
  match body with
  | .error (.httpError t) =>
    .error (.jobIdNotFound s!"Could not find JobId=<{jobId}>. Reason=<{t}>")
  | r => r

/-- Model of `cancel_job_with_savepoint(job_id, target_dir)`. -/
def cancel_job_with_savepoint (jobId targetDir : String)
    (postResp : Except HttpFailure SavepointTriggerResp)
    (spInfo : Nat → Except PyError TriggerInfo) : Except PyError String :=
  trigger_savepoint jobId targetDir true postResp spInfo

/-- Response of `POST /jars/{id}/run` (opaque to the connector). -/
structure RunResp where
  body : String
deriving DecidableEq, Repr

/-- A value in a job-params dict (bool, int or string). -/
inductive PVal where
  | pb (b : Bool)
  | pn (n : Int)
  | ps (s : String)
deriving DecidableEq, Repr

/-- Model of `run_job(jar_id, job_params=None)`: on `HTTPError` raises
`JobRunFailedException` with the jar id and remote text. -/
def run_job (jarId : String) (_jobParams : Option (List (String × PVal)))
    (runResp : Except HttpFailure RunResp) : Except PyError RunResp :=
  match runResp with
  | .error f =>
    .error (.jobRunFailed
      s!"Unable to start running job from jar=<{jarId}>. Reason=<{f.text}>")
  | .ok r => .ok r

/-- Python `str.split` with a one-character separator, on the character
list: splitting never yields an empty list (`"".split(c)` is `[""]`). -/
def pySplitChar (sep : Char) : List Char → List (List Char)
  | [] => [[]]
  | c :: cs =>
    let rest := pySplitChar sep cs
    if c = sep then [] :: rest
    else
      match rest with
      | [] => [[c]]
      | r :: rs => (c :: r) :: rs

/-- Python `s.split(sep)` for a one-character separator. -/
def pySplit (s : String) (sep : Char) : List String :=
  (pySplitChar sep s.toList).map List.asString

/-- Model of `os.path.basename` on a POSIX path: the part after the last slash. -/
def basename (s : String) : String :=
  (pySplit s '/').getLastD ""

/-- Response of `POST /jars/upload`: the `filename` field. -/
structure UploadResp where
  filename : String
deriving DecidableEq, Repr

/-- Model of `submit_jar(jar_path)`: on success returns
`os.path.basename(response['filename'])`; on `HTTPError` raises
`NotValidJARException` naming the original path (the transport error is
swallowed). -/
def submit_jar (jarPath : String) (uploadResp : Except HttpFailure UploadResp) :
    Except PyError String :=
  match uploadResp with
  | .error _ => .error (.notValidJAR s!"File at {jarPath} is not a valid JAR")
  | .ok resp => .ok (basename resp.filename)

/-- Model of `job_info(job_id)`: a bare `handle_response` around `GET /jobs/{id}` —
no try/except, so an `HTTPError` propagates unchanged. -/
def job_info (resp : Except HttpFailure JobInfo) : Except PyError JobInfo :=
  match resp with
  | .error f => .error (.httpError f.text)
  | .ok j => .ok j

/-- Model of `_build_job_params(raw_params)`: the dict comprehension keeping exactly
the entries whose value is not `None`. -/
def build_job_params (rawParams : List (String × Option PVal)) :
    List (String × PVal) :=
  rawParams.filterMap (fun kv => kv.2.map (fun v => (kv.1, v)))

/-- Model of `cancel_job(job_id)`: the PATCH *and* the `_await_job_termination` call
sit inside one `try`; an `HTTPError` from either is re-raised as
`JobIdNotFoundException`, while `MaxRetriesReachedException` propagates. -/
def cancel_job (jobId : String) (patchResp : Except HttpFailure Unit)
    (jobInfoOracle : Nat → Except PyError JobInfo) : Except PyError Bool :=
  let body : Except PyError Bool :=
    match patchResp with
    | .error f => .error (.httpError f.text)
    | .ok _ => (awaitJobTermination jobId jobInfoOracle).result
  match body with
  | .error (.httpError t) =>
    .error (.jobIdNotFound s!"Could not find job=<{jobId}>. Reason=<{t}>")
  | r => r

/-- One remote call made by `submit_job`, in order of issue. -/
inductive Event where
  | savepointTrigger
  | jarUpload
  | runJob (params : Option (List (String × PVal)))
deriving DecidableEq, Repr

/-- The remote world `submit_job` talks to: the savepoint-trigger POST,
the status-poll oracle, the jar upload and the run request. -/
structure Env where
  spPost : Except HttpFailure SavepointTriggerResp
  spInfo : Nat → Except PyError TriggerInfo
  uploadResp : Except HttpFailure UploadResp
  runResp : Except HttpFailure RunResp

/-- Model of `submit_job(jar_path, target_dir=None, job_id=None,
allow_non_restore=False, parallelism=1, entry_class=None, extra_args=None)`.
When `job_id` and `target_dir` are both set: savepoint-with-cancel, then
(the awaited path being a string, hence not `None`) build the restore
params, upload the jar and run it with them.  Otherwise: upload and run with
no params.  The second component lists the remote calls made, in order. -/
def submit_job (env : Env) (jarPath : String)
    (targetDir : Option String := none) (jobId : Option String := none)
    (allowNonRestore : Bool := false) (parallelism : Int := 1)
    (entryClass : Option String := none) (extraArgs : Option String := none) :
    Except PyError RunResp × List Event :=
  match jobId, targetDir with
  | some jid, some tdir =>
    match cancel_job_with_savepoint jid tdir env.spPost env.spInfo with
    | .error e => (.error e, [.savepointTrigger])
    | .ok savepointPath =>
      let jobParams := build_job_params
        [("allowNonRestoredState", some (.pb allowNonRestore)),
         ("programArg", extraArgs.map .ps),
         ("parallelism", some (.pn parallelism)),
         ("entryClass", entryClass.map .ps),
         ("savepointPath", some (.ps savepointPath))]
      match submit_jar jarPath env.uploadResp with
      | .error e => (.error e, [.savepointTrigger, .jarUpload])
      | .ok jarId =>
        (run_job jarId (some jobParams) env.runResp,
         [.savepointTrigger, .jarUpload, .runJob (some jobParams)])
  | _, _ =>
    match submit_jar jarPath env.uploadResp with
    | .error e => (.error e, [.jarUpload])
    | .ok jarId => (run_job jarId none env.runResp, [.jarUpload, .runJob none])

/-- One record of the resource manager's application list
(`apps.app[*]`): the fields the discovery code reads. -/
structure AppInfo where
  state : String
  name : String
  amRPCAddress : String
deriving DecidableEq, Repr

/-- Model of `_get_running_app(apps_info, session_name)`: filter to RUNNING apps
with the requested name; raise a generic `Exception` on zero or on more
than one match, else return the single match. -/
def get_running_app (appsInfo : List AppInfo) (sessionName : String) :
    Except PyError AppInfo :=
  let runningApps := appsInfo.filter
    (fun x => x.state = "RUNNING" && x.name = sessionName)
  match runningApps with
  | [] =>
    .error (.genericError
      s!"No app found with state=<RUNNING> and name=<{sessionName}>")
  | [runningApp] => .ok runningApp
  | _ =>
    .error (.genericError
      s!"More then one app found with state=<RUNNING> and name=<{sessionName}>")

/-- The host/port pair discovery returns. -/
structure RpcInfo where
  rpc_address : String
  rpc_port : String
deriving DecidableEq, Repr

/-- Model of `_build_rpc_address_info(running_app)`:
`rpc_address, rpc_port = running_app['amRPCAddress'].split(":")` — Python
tuple unpacking raises `ValueError` unless the split has exactly two
parts. -/
def build_rpc_address_info (runningApp : AppInfo) : Except PyError RpcInfo :=
  match pySplit runningApp.amRPCAddress ':' with
  | [rpcAddress, rpcPort] => .ok ⟨rpcAddress, rpcPort⟩
  | _ => .error (.valueError "not enough values to unpack")

/-- Model of `_find_address`, given the parsed app list (`_get_apps_info` is the
HTTP fetch, already reflected in the `appsInfo` argument). -/
def find_address (appsInfo : List AppInfo) (sessionName : String) :
    Except PyError RpcInfo := do
  let runningApp ← get_running_app appsInfo sessionName
  build_rpc_address_info runningApp

/-! ### Lemmas about the savepoint-completion polling loop -/

theorem awaitSpLoop_err (maxR r : Nat) (info : Nat → Except PyError TriggerInfo)
    (e : PyError) (h : info 0 = .error e) :
    awaitSpLoop maxR info (r + 1) = ⟨.error e, 1, 0⟩ := by
  simp [awaitSpLoop, h]

theorem awaitSpLoop_pending_step (maxR r : Nat)
    (info : Nat → Except PyError TriggerInfo) (ti : TriggerInfo)
    (h : info 0 = .ok ti) (hip : ti.statusId = "IN_PROGRESS") :
    awaitSpLoop maxR info (r + 1) =
      ⟨(awaitSpLoop maxR (fun n => info (n + 1)) r).result,
       (awaitSpLoop maxR (fun n => info (n + 1)) r).attempts + 1,
       (awaitSpLoop maxR (fun n => info (n + 1)) r).sleeps + 1⟩ := by
  simp [awaitSpLoop, h, hip]

theorem awaitSpLoop_fail_step (maxR r : Nat)
    (info : Nat → Except PyError TriggerInfo) (ti : TriggerInfo)
    (fc : FailureCause) (h : info 0 = .ok ti)
    (hip : ti.statusId ≠ "IN_PROGRESS")
    (hfc : ti.operation.failureCause = some fc) :
    awaitSpLoop maxR info (r + 1) =
      ⟨.error (.failedSavepoint fc.stackTrace), 1, 0⟩ := by
  simp [awaitSpLoop, h, hip, hfc]

theorem awaitSpLoop_loc_step (maxR r : Nat)
    (info : Nat → Except PyError TriggerInfo) (ti : TriggerInfo)
    (loc : String) (h : info 0 = .ok ti)
    (hip : ti.statusId ≠ "IN_PROGRESS")
    (hfc : ti.operation.failureCause = none)
    (hloc : ti.operation.location = some loc) :
    awaitSpLoop maxR info (r + 1) = ⟨.ok loc, 1, 0⟩ := by
  simp [awaitSpLoop, h, hip, hfc, hloc]

theorem awaitSpLoop_shift (maxR k : Nat) :
    ∀ (info : Nat → Except PyError TriggerInfo) (rem : Nat), k ≤ rem →
    (∀ j, j < k → ∃ ti, info j = Except.ok ti ∧ ti.statusId = "IN_PROGRESS") →
    awaitSpLoop maxR info rem =
      ⟨(awaitSpLoop maxR (fun n => info (n + k)) (rem - k)).result,
       (awaitSpLoop maxR (fun n => info (n + k)) (rem - k)).attempts + k,
       (awaitSpLoop maxR (fun n => info (n + k)) (rem - k)).sleeps + k⟩ := by
  induction k with
  | zero => intro info rem _ _; rfl
  | succ k ih =>
    intro info rem hk hp
    obtain ⟨ti, hti, hip⟩ := hp 0 (Nat.succ_pos k)
    obtain ⟨r, rfl⟩ : ∃ r, rem = r + 1 := ⟨rem - 1, by omega⟩
    rw [awaitSpLoop_pending_step maxR r info ti hti hip]
    rw [ih (fun n => info (n + 1)) r (by omega)
      (fun j hj => hp (j + 1) (by omega))]
    simp only [Nat.succ_sub_succ]
    rfl

theorem awaitSpLoop_all_pending (maxR : Nat) :
    ∀ (rem : Nat) (info : Nat → Except PyError TriggerInfo),
    (∀ j, j < rem → ∃ ti, info j = Except.ok ti ∧ ti.statusId = "IN_PROGRESS") →
    awaitSpLoop maxR info rem =
      ⟨.error (.maxRetriesReached
          s!"Savepoint was not completed in time. Max retries=<{maxR}> reached"),
        rem, rem⟩ := by
  intro rem
  induction rem with
  | zero => intro info _; rfl
  | succ r ih =>
    intro info hp
    obtain ⟨ti, hti, hip⟩ := hp 0 (Nat.succ_pos r)
    rw [awaitSpLoop_pending_step maxR r info ti hti hip]
    rw [ih (fun n => info (n + 1)) (fun j hj => hp (j + 1) (by omega))]

theorem awaitSpLoop_first_loc (maxR k rem : Nat)
    (info : Nat → Except PyError TriggerInfo) (ti : TriggerInfo) (loc : String)
    (hk : k < rem)
    (hp : ∀ j, j < k → ∃ t, info j = Except.ok t ∧ t.statusId = "IN_PROGRESS")
    (hti : info k = .ok ti) (hip : ti.statusId ≠ "IN_PROGRESS")
    (hfc : ti.operation.failureCause = none)
    (hloc : ti.operation.location = some loc) :
    awaitSpLoop maxR info rem = ⟨.ok loc, k + 1, k⟩ := by
  rw [awaitSpLoop_shift maxR k info rem (Nat.le_of_lt hk) hp]
  obtain ⟨r, hr⟩ : ∃ r, rem - k = r + 1 := ⟨rem - k - 1, by omega⟩
  rw [hr, awaitSpLoop_loc_step maxR r (fun n => info (n + k)) ti loc
    (by simpa using hti) hip hfc hloc]
  simp [Nat.add_comm]

theorem awaitSpLoop_first_fail (maxR k rem : Nat)
    (info : Nat → Except PyError TriggerInfo) (ti : TriggerInfo)
    (fc : FailureCause) (hk : k < rem)
    (hp : ∀ j, j < k → ∃ t, info j = Except.ok t ∧ t.statusId = "IN_PROGRESS")
    (hti : info k = .ok ti) (hip : ti.statusId ≠ "IN_PROGRESS")
    (hfc : ti.operation.failureCause = some fc) :
    awaitSpLoop maxR info rem =
      ⟨.error (.failedSavepoint fc.stackTrace), k + 1, k⟩ := by
  rw [awaitSpLoop_shift maxR k info rem (Nat.le_of_lt hk) hp]
  obtain ⟨r, hr⟩ : ∃ r, rem - k = r + 1 := ⟨rem - k - 1, by omega⟩
  rw [hr, awaitSpLoop_fail_step maxR r (fun n => info (n + k)) ti fc
    (by simpa using hti) hip hfc]
  simp [Nat.add_comm]

/-! ### Lemmas about the job-termination polling loop -/

theorem awaitTermLoop_err (jobId : String) (maxR r : Nat)
    (info : Nat → Except PyError JobInfo) (e : PyError)
    (h : info 0 = .error e) :
    awaitTermLoop jobId maxR info (r + 1) = ⟨.error e, 1, 0⟩ := by
  simp [awaitTermLoop, h]

theorem awaitTermLoop_running_step (jobId : String) (maxR r : Nat)
    (info : Nat → Except PyError JobInfo) (ji : JobInfo)
    (h : info 0 = .ok ji) (hr : ji.state = "RUNNING") :
    awaitTermLoop jobId maxR info (r + 1) =
      ⟨(awaitTermLoop jobId maxR (fun n => info (n + 1)) r).result,
       (awaitTermLoop jobId maxR (fun n => info (n + 1)) r).attempts + 1,
       (awaitTermLoop jobId maxR (fun n => info (n + 1)) r).sleeps + 1⟩ := by
  simp [awaitTermLoop, h, hr]

theorem awaitTermLoop_stop_step (jobId : String) (maxR r : Nat)
    (info : Nat → Except PyError JobInfo) (ji : JobInfo)
    (h : info 0 = .ok ji) (hs : ji.state ≠ "RUNNING") :
    awaitTermLoop jobId maxR info (r + 1) = ⟨.ok true, 1, 0⟩ := by
  simp [awaitTermLoop, h, hs]

theorem awaitTermLoop_shift (jobId : String) (maxR k : Nat) :
    ∀ (info : Nat → Except PyError JobInfo) (rem : Nat), k ≤ rem →
    (∀ j, j < k → ∃ ji, info j = Except.ok ji ∧ ji.state = "RUNNING") →
    awaitTermLoop jobId maxR info rem =
      ⟨(awaitTermLoop jobId maxR (fun n => info (n + k)) (rem - k)).result,
       (awaitTermLoop jobId maxR (fun n => info (n + k)) (rem - k)).attempts + k,
       (awaitTermLoop jobId maxR (fun n => info (n + k)) (rem - k)).sleeps + k⟩ := by
  induction k with
  | zero => intro info rem _ _; rfl
  | succ k ih =>
    intro info rem hk hp
    obtain ⟨ji, hji, hr⟩ := hp 0 (Nat.succ_pos k)
    obtain ⟨r, rfl⟩ : ∃ r, rem = r + 1 := ⟨rem - 1, by omega⟩
    rw [awaitTermLoop_running_step jobId maxR r info ji hji hr]
    rw [ih (fun n => info (n + 1)) r (by omega)
      (fun j hj => hp (j + 1) (by omega))]
    simp only [Nat.succ_sub_succ]
    rfl

theorem awaitTermLoop_all_running (jobId : String) (maxR : Nat) :
    ∀ (rem : Nat) (info : Nat → Except PyError JobInfo),
    (∀ j, j < rem → ∃ ji, info j = Except.ok ji ∧ ji.state = "RUNNING") →
    awaitTermLoop jobId maxR info rem =
      ⟨.error (.maxRetriesReached
          s!"Job=<{jobId}> could not be canceled in time. Max retries=<{maxR}> reached"),
        rem, rem⟩ := by
  intro rem
  induction rem with
  | zero => intro info _; rfl
  | succ r ih =>
    intro info hp
    obtain ⟨ji, hji, hr⟩ := hp 0 (Nat.succ_pos r)
    rw [awaitTermLoop_running_step jobId maxR r info ji hji hr]
    rw [ih (fun n => info (n + 1)) (fun j hj => hp (j + 1) (by omega))]

theorem awaitTermLoop_first_stop (jobId : String) (maxR k rem : Nat)
    (info : Nat → Except PyError JobInfo) (ji : JobInfo) (hk : k < rem)
    (hp : ∀ j, j < k → ∃ j2, info j = Except.ok j2 ∧ j2.state = "RUNNING")
    (hji : info k = .ok ji) (hs : ji.state ≠ "RUNNING") :
    awaitTermLoop jobId maxR info rem = ⟨.ok true, k + 1, k⟩ := by
  rw [awaitTermLoop_shift jobId maxR k info rem (Nat.le_of_lt hk) hp]
  obtain ⟨r, hr⟩ : ∃ r, rem - k = r + 1 := ⟨rem - k - 1, by omega⟩
  rw [hr, awaitTermLoop_stop_step jobId maxR r (fun n => info (n + k)) ji
    (by simpa using hji) hs]
  simp [Nat.add_comm]

/-! ### Concrete fixtures (used by witnesses and counterexamples) -/

/-- A still-pending savepoint-status response. -/
def inProgressInfo : TriggerInfo := ⟨"IN_PROGRESS", ⟨none, none⟩⟩

/-- A completed savepoint-status response with a storage location. -/
def completedInfo (loc : String) : TriggerInfo := ⟨"COMPLETED", ⟨none, some loc⟩⟩

/-- A terminal savepoint-status response carrying a failure cause. -/
def failedInfo (stackTrace : String) : TriggerInfo :=
  ⟨"COMPLETED", ⟨some ⟨stackTrace⟩, none⟩⟩

/-- Status oracle replaying a fixed list of responses (pending afterwards). -/
def spOracleOf (l : List TriggerInfo) : Nat → Except PyError TriggerInfo :=
  fun n => .ok (l.getD n inProgressInfo)

/-- A RUNNING job-info response. -/
def runningInfo : JobInfo := ⟨"RUNNING"⟩

/-- Job-info oracle replaying a fixed list of responses (RUNNING afterwards). -/
def jobOracleOf (l : List JobInfo) : Nat → Except PyError JobInfo :=
  fun n => .ok (l.getD n runningInfo)

/-- A fully successful remote world: savepoint trigger accepted (request id
`r1`), savepoint completes immediately at `/sp/1`, upload stores
`up/abc.jar`, run succeeds. -/
def envA : Env :=
  ⟨.ok ⟨"r1"⟩, spOracleOf [completedInfo "/sp/1"], .ok ⟨"up/abc.jar"⟩, .ok ⟨"ok"⟩⟩

/-- The application list of the discovery examples. -/
def appsA : List AppInfo :=
  [⟨"RUNNING", "x", "10.0.0.1:9000"⟩,
   ⟨"FINISHED", "x", "1:2"⟩,
   ⟨"RUNNING", "y", "3:4"⟩]

/-! ### Helper lemmas about `submit_job` -/

/-- In a stateful redeploy, the params handed to the run request are the
`_build_job_params` of the five-entry raw dict, with the awaited savepoint
path as `savepointPath`. -/
theorem submit_job_params_shape (env : Env) (jarPath jid tdir : String)
    (allow : Bool) (par : Int) (entry extra : Option String)
    (p : List (String × PVal))
    (h : Event.runJob (some p) ∈
      (submit_job env jarPath (some tdir) (some jid) allow par entry extra).2) :
    ∃ path,
      cancel_job_with_savepoint jid tdir env.spPost env.spInfo = Except.ok path ∧
      p = build_job_params
        [("allowNonRestoredState", some (.pb allow)),
         ("programArg", extra.map .ps),
         ("parallelism", some (.pn par)),
         ("entryClass", entry.map .ps),
         ("savepointPath", some (.ps path))] := by
  rcases hsp : cancel_job_with_savepoint jid tdir env.spPost env.spInfo with e | path
  · simp [submit_job, hsp] at h
  · rcases hup : submit_jar jarPath env.uploadResp with e | jarId
    · simp [submit_job, hsp, hup] at h
    · simp [submit_job, hsp, hup] at h
      exact ⟨path, rfl, h⟩

/-- Value of `_build_job_params` on the restore dict, computed by cases on the two
optional entries. -/
theorem build_job_params_restore (allow : Bool) (par : Int)
    (extra entry : Option String) (path : String) :
    build_job_params
      [("allowNonRestoredState", some (.pb allow)),
       ("programArg", extra.map .ps),
       ("parallelism", some (.pn par)),
       ("entryClass", entry.map .ps),
       ("savepointPath", some (.ps path))] =
    ("allowNonRestoredState", PVal.pb allow) ::
      ((extra.map (fun s => ("programArg", PVal.ps s))).toList ++
        ("parallelism", PVal.pn par) ::
          ((entry.map (fun s => ("entryClass", PVal.ps s))).toList ++
            [("savepointPath", PVal.ps path)])) := by
  cases extra <;> cases entry <;> rfl

/-! ### Claim theorems -/

/-- C1: `submit_job` runs the stateful-redeploy workflow (savepoint trigger
with cancel, strictly before upload and run) exactly when both `job_id` and
`target_dir` are non-`None`; for every other intent it performs a fresh
deploy (upload then run) and never calls trigger-savepoint. -/
theorem submit_job_savepoint_gating (env : Env) (jarPath : String)
    (targetDir jobId : Option String) (allow : Bool) (par : Int)
    (entry extra : Option String) :
    (jobId.isSome ∧ targetDir.isSome →
      ∃ rest, (submit_job env jarPath targetDir jobId allow par entry extra).2 =
          Event.savepointTrigger :: rest ∧
        Event.savepointTrigger ∉ rest ∧
        (rest = [] ∨ rest = [Event.jarUpload] ∨
          ∃ p, rest = [Event.jarUpload, Event.runJob (some p)]))
    ∧ (¬(jobId.isSome ∧ targetDir.isSome) →
      Event.savepointTrigger ∉
          (submit_job env jarPath targetDir jobId allow par entry extra).2 ∧
        ((submit_job env jarPath targetDir jobId allow par entry extra).2 =
            [Event.jarUpload] ∨
         (submit_job env jarPath targetDir jobId allow par entry extra).2 =
            [Event.jarUpload, Event.runJob none])) := by
  constructor
  · rintro ⟨hj, ht⟩
    obtain ⟨jid, rfl⟩ := Option.isSome_iff_exists.mp hj
    obtain ⟨tdir, rfl⟩ := Option.isSome_iff_exists.mp ht
    rcases hsp : cancel_job_with_savepoint jid tdir env.spPost env.spInfo with e | path
    · exact ⟨[], by simp [submit_job, hsp], by simp, Or.inl rfl⟩
    · rcases hup : submit_jar jarPath env.uploadResp with e | jarId
      · exact ⟨[Event.jarUpload], by simp [submit_job, hsp, hup], by simp,
          Or.inr (Or.inl rfl)⟩
      · refine ⟨[Event.jarUpload, Event.runJob (some (build_job_params
          [("allowNonRestoredState", some (.pb allow)),
           ("programArg", extra.map .ps),
           ("parallelism", some (.pn par)),
           ("entryClass", entry.map .ps),
           ("savepointPath", some (.ps path))]))],
          by simp [submit_job, hsp, hup], by simp, Or.inr (Or.inr ⟨_, rfl⟩)⟩
  · intro hn
    have hfresh : (submit_job env jarPath targetDir jobId allow par entry extra).2 =
        [Event.jarUpload] ∨
        (submit_job env jarPath targetDir jobId allow par entry extra).2 =
        [Event.jarUpload, Event.runJob none] := by
      rcases jobId with _ | jid <;> rcases targetDir with _ | tdir
      · rcases hup : submit_jar jarPath env.uploadResp with e | jarId
        · exact Or.inl (by simp [submit_job, hup])
        · exact Or.inr (by simp [submit_job, hup])
      · rcases hup : submit_jar jarPath env.uploadResp with e | jarId
        · exact Or.inl (by simp [submit_job, hup])
        · exact Or.inr (by simp [submit_job, hup])
      · rcases hup : submit_jar jarPath env.uploadResp with e | jarId
        · exact Or.inl (by simp [submit_job, hup])
        · exact Or.inr (by simp [submit_job, hup])
      · exact absurd ⟨rfl, rfl⟩ hn
    refine ⟨?_, hfresh⟩
    rcases hfresh with h | h <;> rw [h] <;> simp

/-- Witness for C1: with a fully successful environment, a both-set intent
opens with the savepoint trigger and an intent lacking both arguments never
triggers a savepoint. -/
theorem submit_job_savepoint_gating_wit :
    (∃ rest, (submit_job envA "a.jar" (some "/td") (some "jid")
        false 1 none none).2 = Event.savepointTrigger :: rest ∧
      Event.savepointTrigger ∉ rest ∧
      (rest = [] ∨ rest = [Event.jarUpload] ∨
        ∃ p, rest = [Event.jarUpload, Event.runJob (some p)]))
    ∧ (Event.savepointTrigger ∉
        (submit_job envA "a.jar" none none false 1 none none).2 ∧
      ((submit_job envA "a.jar" none none false 1 none none).2 =
          [Event.jarUpload] ∨
       (submit_job envA "a.jar" none none false 1 none none).2 =
          [Event.jarUpload, Event.runJob none])) :=
  ⟨(submit_job_savepoint_gating envA "a.jar" (some "/td") (some "jid")
      false 1 none none).1 ⟨rfl, rfl⟩,
   (submit_job_savepoint_gating envA "a.jar" none none
      false 1 none none).2 (by simp)⟩

/-- C2 (counterexample): with the default retry budget of 20 and a check
that is pending on every attempt, the savepoint wait performs 20 sleeps —
it sleeps after the final pending attempt too — not the claimed
`maxRetries - 1 = 19`. -/
theorem poll_engine_sleeps_cex :
    (awaitSavepointCompletion (fun _ => Except.ok inProgressInfo)).sleeps ≠
      20 - 1 := by
  decide

/-- C2 (amended): a check pending `k < maxRetries` times then completing
returns the completion value after exactly `k` sleeps and `k + 1` attempts;
a check pending on every attempt raises `MaxRetriesReachedException` after
exactly `maxRetries` attempts and `maxRetries` sleeps (one after every
pending attempt, the final one included) — for both the savepoint wait and
the job-termination wait. -/
theorem poll_engine_counts :
    (∀ (info : Nat → Except PyError TriggerInfo) (k maxR : Nat)
        (ti : TriggerInfo) (loc : String), k < maxR →
      (∀ j, j < k → ∃ t, info j = Except.ok t ∧ t.statusId = "IN_PROGRESS") →
      info k = .ok ti → ti.statusId ≠ "IN_PROGRESS" →
      ti.operation.failureCause = none → ti.operation.location = some loc →
      awaitSavepointCompletion info maxR = ⟨.ok loc, k + 1, k⟩)
    ∧ (∀ (info : Nat → Except PyError TriggerInfo) (maxR : Nat),
      (∀ j, j < maxR → ∃ t, info j = Except.ok t ∧ t.statusId = "IN_PROGRESS") →
      awaitSavepointCompletion info maxR =
        ⟨.error (.maxRetriesReached
            s!"Savepoint was not completed in time. Max retries=<{maxR}> reached"),
          maxR, maxR⟩)
    ∧ (∀ (jobId : String) (info : Nat → Except PyError JobInfo)
        (k maxR : Nat) (ji : JobInfo), k < maxR →
      (∀ j, j < k → ∃ j2, info j = Except.ok j2 ∧ j2.state = "RUNNING") →
      info k = .ok ji → ji.state ≠ "RUNNING" →
      awaitJobTermination jobId info maxR = ⟨.ok true, k + 1, k⟩)
    ∧ (∀ (jobId : String) (info : Nat → Except PyError JobInfo) (maxR : Nat),
      (∀ j, j < maxR → ∃ j2, info j = Except.ok j2 ∧ j2.state = "RUNNING") →
      awaitJobTermination jobId info maxR =
        ⟨.error (.maxRetriesReached
            s!"Job=<{jobId}> could not be canceled in time. Max retries=<{maxR}> reached"),
          maxR, maxR⟩) := by
  refine ⟨?_, ?_, ?_, ?_⟩
  · intro info k maxR ti loc hk hp hti hip hfc hloc
    exact awaitSpLoop_first_loc maxR k maxR info ti loc hk hp hti hip hfc hloc
  · intro info maxR hp
    exact awaitSpLoop_all_pending maxR maxR info hp
  · intro jobId info k maxR ji hk hp hji hs
    exact awaitTermLoop_first_stop jobId maxR k maxR info ji hk hp hji hs
  · intro jobId info maxR hp
    exact awaitTermLoop_all_running jobId maxR maxR info hp

/-- Witness for C2 (amended): one pending then done gives one sleep and two
attempts; always pending with budget 2 gives two attempts and two sleeps —
for both waits. -/
theorem poll_engine_counts_wit :
    awaitSavepointCompletion (spOracleOf [inProgressInfo, completedInfo "/sp/9"]) 20 =
      ⟨.ok "/sp/9", 2, 1⟩ ∧
    awaitSavepointCompletion (fun _ => Except.ok inProgressInfo) 2 =
      ⟨.error (.maxRetriesReached
          "Savepoint was not completed in time. Max retries=<2> reached"), 2, 2⟩ ∧
    awaitJobTermination "j7" (jobOracleOf [runningInfo, ⟨"CANCELED"⟩]) 20 =
      ⟨.ok true, 2, 1⟩ ∧
    awaitJobTermination "j7" (fun _ => Except.ok runningInfo) 2 =
      ⟨.error (.maxRetriesReached
          "Job=<j7> could not be canceled in time. Max retries=<2> reached"), 2, 2⟩ :=
  ⟨poll_engine_counts.1 (spOracleOf [inProgressInfo, completedInfo "/sp/9"])
      1 20 (completedInfo "/sp/9") "/sp/9" (by omega)
      (fun j hj => by
        have : j = 0 := by omega
        subst this; exact ⟨inProgressInfo, rfl, rfl⟩)
      rfl (by decide) rfl rfl,
   poll_engine_counts.2.1 (fun _ => Except.ok inProgressInfo) 2
      (fun j _ => ⟨inProgressInfo, rfl, rfl⟩),
   poll_engine_counts.2.2.1 "j7" (jobOracleOf [runningInfo, ⟨"CANCELED"⟩])
      1 20 ⟨"CANCELED"⟩ (by omega)
      (fun j hj => by
        have : j = 0 := by omega
        subst this; exact ⟨runningInfo, rfl, rfl⟩)
      rfl (by decide),
   poll_engine_counts.2.2.2 "j7" (fun _ => Except.ok runningInfo) 2
      (fun j _ => ⟨runningInfo, rfl, rfl⟩)⟩

/-- C3 (counterexample): a successful `trigger_savepoint` whose server
reported request id `r1` and whose savepoint completed at `/sp/1` returns
`/sp/1` — the savepoint location, not the request id. -/
theorem trigger_savepoint_request_id_cex :
    trigger_savepoint "job-1" "/td" false (.ok ⟨"r1"⟩)
        (spOracleOf [completedInfo "/sp/1"]) = .ok "/sp/1" ∧
    trigger_savepoint "job-1" "/td" false (.ok ⟨"r1"⟩)
        (spOracleOf [completedInfo "/sp/1"]) ≠ .ok "r1" := by
  constructor <;> decide

/-- C3 (amended): on success `trigger_savepoint` uses the response's
request id to poll and returns the awaited savepoint's storage location
path. -/
theorem trigger_savepoint_returns_location (jobId targetDir : String)
    (cancelJob : Bool) (resp : SavepointTriggerResp)
    (spInfo : Nat → Except PyError TriggerInfo) (loc : String)
    (h : (awaitSavepointCompletion spInfo).result = Except.ok loc) :
    trigger_savepoint jobId targetDir cancelJob (.ok resp) spInfo =
      Except.ok loc := by
  simp [trigger_savepoint, h]

/-- Witness for C3 (amended). -/
theorem trigger_savepoint_returns_location_wit :
    trigger_savepoint "j" "/t" true (.ok ⟨"r9"⟩)
        (spOracleOf [inProgressInfo, completedInfo "/sp/2"]) = .ok "/sp/2" :=
  trigger_savepoint_returns_location "j" "/t" true ⟨"r9"⟩
    (spOracleOf [inProgressInfo, completedInfo "/sp/2"]) "/sp/2" (by decide)

/-- C4: the savepoint wait is pending exactly while status is IN_PROGRESS;
at the first terminal status it raises `FailedSavepointException` with the
remote stack-trace text when a failure cause is present, with no further
attempts, and otherwise returns the savepoint's storage location path. -/
theorem savepoint_wait_first_terminal
    (info : Nat → Except PyError TriggerInfo) (k maxR : Nat)
    (ti : TriggerInfo) (hk : k < maxR)
    (hp : ∀ j, j < k → ∃ t, info j = Except.ok t ∧ t.statusId = "IN_PROGRESS")
    (hti : info k = .ok ti) (hip : ti.statusId ≠ "IN_PROGRESS") :
    (∀ fc, ti.operation.failureCause = some fc →
      awaitSavepointCompletion info maxR =
        ⟨.error (.failedSavepoint fc.stackTrace), k + 1, k⟩)
    ∧ (∀ loc, ti.operation.failureCause = none →
        ti.operation.location = some loc →
      awaitSavepointCompletion info maxR = ⟨.ok loc, k + 1, k⟩) := by
  constructor
  · intro fc hfc
    exact awaitSpLoop_first_fail maxR k maxR info ti fc hk hp hti hip hfc
  · intro loc hfc hloc
    exact awaitSpLoop_first_loc maxR k maxR info ti loc hk hp hti hip hfc hloc

/-- Witness for C4: `[IN_PROGRESS, IN_PROGRESS, COMPLETED(location=/sp/1)]`
yields `/sp/1` after two sleeps; `[COMPLETED(failure-cause=boom)]` raises
`FailedSavepointException("boom")` on the first attempt with no sleeps. -/
theorem savepoint_wait_first_terminal_wit :
    awaitSavepointCompletion
        (spOracleOf [inProgressInfo, inProgressInfo, completedInfo "/sp/1"]) =
      ⟨.ok "/sp/1", 3, 2⟩ ∧
    awaitSavepointCompletion (spOracleOf [failedInfo "boom"]) =
      ⟨.error (.failedSavepoint "boom"), 1, 0⟩ :=
  ⟨(savepoint_wait_first_terminal
      (spOracleOf [inProgressInfo, inProgressInfo, completedInfo "/sp/1"])
      2 20 (completedInfo "/sp/1") (by omega)
      (fun j hj => by
        interval_cases j <;> exact ⟨inProgressInfo, rfl, rfl⟩)
      rfl (by decide)).2 "/sp/1" rfl rfl,
   (savepoint_wait_first_terminal (spOracleOf [failedInfo "boom"])
      0 20 (failedInfo "boom") (by omega)
      (fun j hj => absurd hj (by omega))
      rfl (by decide)).1 ⟨"boom"⟩ rfl⟩

/-- C5 (counterexample): an HTTP transport failure raised by `job_info`
while polling inside `cancel_job` does not propagate unchanged — it is
re-raised as `JobIdNotFoundException`. -/
theorem transport_error_reclassified_cex :
    cancel_job "j1" (.ok ()) (fun _ => Except.error (.httpError "oops")) =
      .error (.jobIdNotFound "Could not find job=<j1>. Reason=<oops>") ∧
    cancel_job "j1" (.ok ()) (fun _ => Except.error (.httpError "oops")) ≠
      .error (.httpError "oops") := by
  constructor <;> decide

/-- C5 (amended): the `try` blocks of `cancel_job` and `trigger_savepoint`
span their polling loops, so HTTP errors raised by `job_info` or by
`savepoint_trigger_info` during polling are also re-raised as
`JobIdNotFoundException`; non-HTTP errors propagate unchanged from both,
and a bare `job_info` call propagates the transport failure unchanged. -/
theorem transport_error_classification :
    (∀ (jobId : String) (oracle : Nat → Except PyError JobInfo) (t : String),
      (awaitJobTermination jobId oracle).result = Except.error (.httpError t) →
      cancel_job jobId (.ok ()) oracle =
        .error (.jobIdNotFound s!"Could not find job=<{jobId}>. Reason=<{t}>"))
    ∧ (∀ (jobId targetDir : String) (c : Bool) (resp : SavepointTriggerResp)
        (oracle : Nat → Except PyError TriggerInfo) (t : String),
      (awaitSavepointCompletion oracle).result = Except.error (.httpError t) →
      trigger_savepoint jobId targetDir c (.ok resp) oracle =
        .error (.jobIdNotFound s!"Could not find JobId=<{jobId}>. Reason=<{t}>"))
    ∧ (∀ f : HttpFailure, job_info (.error f) = .error (.httpError f.text))
    ∧ (∀ (e : PyError) (jobId : String) (oracle : Nat → Except PyError JobInfo),
      (∀ t, e ≠ .httpError t) →
      (awaitJobTermination jobId oracle).result = Except.error e →
      cancel_job jobId (.ok ()) oracle = .error e)
    ∧ (∀ (e : PyError) (jobId targetDir : String) (c : Bool)
        (resp : SavepointTriggerResp)
        (oracle : Nat → Except PyError TriggerInfo),
      (∀ t, e ≠ .httpError t) →
      (awaitSavepointCompletion oracle).result = Except.error e →
      trigger_savepoint jobId targetDir c (.ok resp) oracle = .error e) := by
  refine ⟨?_, ?_, ?_, ?_, ?_⟩
  · intro jobId oracle t h
    simp [cancel_job, h]
  · intro jobId targetDir c resp oracle t h
    simp [trigger_savepoint, h]
  · intro f
    rfl
  · intro e jobId oracle he h
    simp only [cancel_job, h]
    cases e
    case httpError t => exact absurd rfl (he t)
    all_goals rfl
  · intro e jobId targetDir c resp oracle he h
    simp only [trigger_savepoint, h]
    cases e
    case httpError t => exact absurd rfl (he t)
    all_goals rfl

/-- Witness for C5 (amended). -/
theorem transport_error_classification_wit :
    cancel_job "j1" (.ok ())
        (fun _ => Except.error (.httpError "gone")) =
      .error (.jobIdNotFound "Could not find job=<j1>. Reason=<gone>") ∧
    job_info (.error ⟨404, "nf"⟩) = .error (.httpError "nf") :=
  ⟨transport_error_classification.1 "j1"
      (fun _ => Except.error (.httpError "gone")) "gone" (by decide),
   transport_error_classification.2.2.1 ⟨404, "nf"⟩⟩

/-- C6: in a stateful redeploy the restore-parameter map handed to the run
request contains exactly the keys among `allowNonRestoredState`,
`programArg`, `parallelism`, `entryClass`, `savepointPath` whose source
value is not `None`, each with its value unchanged. -/
theorem restore_params_exact_keys (env : Env) (jarPath jid tdir : String)
    (allow : Bool) (par : Int) (entry extra : Option String)
    (p : List (String × PVal))
    (h : Event.runJob (some p) ∈
      (submit_job env jarPath (some tdir) (some jid) allow par entry extra).2) :
    ∃ path,
      cancel_job_with_savepoint jid tdir env.spPost env.spInfo = Except.ok path ∧
      ∀ (k : String) (v : PVal), (k, v) ∈ p ↔
        ((k = "allowNonRestoredState" ∧ v = .pb allow) ∨
         (k = "programArg" ∧ ∃ s, extra = some s ∧ v = .ps s) ∨
         (k = "parallelism" ∧ v = .pn par) ∨
         (k = "entryClass" ∧ ∃ s, entry = some s ∧ v = .ps s) ∨
         (k = "savepointPath" ∧ v = .ps path)) := by
  obtain ⟨path, hsp, rfl⟩ :=
    submit_job_params_shape env jarPath jid tdir allow par entry extra p h
  refine ⟨path, hsp, ?_⟩
  intro k v
  rw [build_job_params_restore]
  cases extra <;> cases entry <;> simp

/-- Witness for C6: with defaults (`entryClass`/`programArg` unset) only
the three always-set keys appear. -/
theorem restore_params_exact_keys_wit :
    ∃ path,
      cancel_job_with_savepoint "jid" "/td" envA.spPost envA.spInfo =
        Except.ok path ∧
      ∀ (k : String) (v : PVal),
        (k, v) ∈ [("allowNonRestoredState", PVal.pb false),
                   ("parallelism", PVal.pn 1),
                   ("savepointPath", PVal.ps "/sp/1")] ↔
        ((k = "allowNonRestoredState" ∧ v = .pb false) ∨
         (k = "programArg" ∧ ∃ s, (none : Option String) = some s ∧ v = .ps s) ∨
         (k = "parallelism" ∧ v = .pn 1) ∨
         (k = "entryClass" ∧ ∃ s, (none : Option String) = some s ∧ v = .ps s) ∨
         (k = "savepointPath" ∧ v = .ps path)) :=
  restore_params_exact_keys envA "a.jar" "jid" "/td" false 1 none none
    [("allowNonRestoredState", PVal.pb false),
     ("parallelism", PVal.pn 1),
     ("savepointPath", PVal.ps "/sp/1")] (by decide)

/-- C7: a failed upload raises `NotValidJARException` whose message names
the original file path — never the raw transport error — and a successful
upload returns the base name of the server-reported stored file name. -/
theorem submit_jar_invalid_artifact (jarPath : String) (f : HttpFailure)
    (resp : UploadResp) :
    submit_jar jarPath (.error f) =
      .error (.notValidJAR s!"File at {jarPath} is not a valid JAR") ∧
    (∀ t, submit_jar jarPath (.error f) ≠ .error (.httpError t)) ∧
    submit_jar jarPath (.ok resp) = .ok (basename resp.filename) := by
  refine ⟨rfl, ?_, rfl⟩
  intro t h
  simp [submit_jar] at h

/-- Witness for C7: an HTTP 400 upload rejection. -/
theorem submit_jar_invalid_artifact_wit :
    submit_jar "dir/app.jar" (.error ⟨400, "Bad Request"⟩) =
      .error (.notValidJAR "File at dir/app.jar is not a valid JAR") ∧
    (∀ t, submit_jar "dir/app.jar" (.error ⟨400, "Bad Request"⟩) ≠
      .error (.httpError t)) ∧
    submit_jar "dir/app.jar" (.ok ⟨"up/abc.jar"⟩) = .ok (basename "up/abc.jar") :=
  submit_jar_invalid_artifact "dir/app.jar" ⟨400, "Bad Request"⟩ ⟨"up/abc.jar"⟩

/-- C8: `cancel_job` raises `JobIdNotFoundException` when the cancel
request itself fails; after a successful cancel request it polls job state,
pending exactly while the state is RUNNING, returns `true` on the first
non-RUNNING state, and raises `MaxRetriesReachedException` when all 20
checks see RUNNING. -/
theorem cancel_job_behaviour :
    (∀ (jobId : String) (f : HttpFailure)
        (oracle : Nat → Except PyError JobInfo),
      cancel_job jobId (.error f) oracle =
        .error (.jobIdNotFound
          s!"Could not find job=<{jobId}>. Reason=<{f.text}>"))
    ∧ (∀ (jobId : String) (oracle : Nat → Except PyError JobInfo)
        (k : Nat) (ji : JobInfo), k < 20 →
      (∀ j, j < k → ∃ j2, oracle j = Except.ok j2 ∧ j2.state = "RUNNING") →
      oracle k = .ok ji → ji.state ≠ "RUNNING" →
      cancel_job jobId (.ok ()) oracle = .ok true)
    ∧ (∀ (jobId : String) (oracle : Nat → Except PyError JobInfo),
      (∀ j, j < 20 → ∃ j2, oracle j = Except.ok j2 ∧ j2.state = "RUNNING") →
      cancel_job jobId (.ok ()) oracle =
        .error (.maxRetriesReached
          s!"Job=<{jobId}> could not be canceled in time. Max retries=<{20}> reached")) := by
  refine ⟨?_, ?_, ?_⟩
  · intro jobId f oracle
    rfl
  · intro jobId oracle k ji hk hp hji hs
    have ht := awaitTermLoop_first_stop jobId 20 k 20 oracle ji hk hp hji hs
    simp [cancel_job, awaitJobTermination, ht]
  · intro jobId oracle hp
    have ht := awaitTermLoop_all_running jobId 20 20 oracle hp
    simp only [cancel_job, awaitJobTermination, ht]

/-- Witness for C8: a failed cancel request, a job seen RUNNING once then
CANCELED, and a job RUNNING on all 20 checks. -/
theorem cancel_job_behaviour_wit :
    cancel_job "j9" (.error ⟨404, "nf"⟩) (jobOracleOf []) =
      .error (.jobIdNotFound "Could not find job=<j9>. Reason=<nf>") ∧
    cancel_job "j9" (.ok ()) (jobOracleOf [runningInfo, ⟨"CANCELED"⟩]) =
      .ok true ∧
    cancel_job "j9" (.ok ()) (fun _ => Except.ok runningInfo) =
      .error (.maxRetriesReached
        s!"Job=<j9> could not be canceled in time. Max retries=<{20}> reached") :=
  ⟨cancel_job_behaviour.1 "j9" ⟨404, "nf"⟩ (jobOracleOf []),
   cancel_job_behaviour.2.1 "j9" (jobOracleOf [runningInfo, ⟨"CANCELED"⟩])
      1 ⟨"CANCELED"⟩ (by omega)
      (fun j hj => by
        have : j = 0 := by omega
        subst this; exact ⟨runningInfo, rfl, rfl⟩)
      rfl (by decide),
   cancel_job_behaviour.2.2 "j9" (fun _ => Except.ok runningInfo)
      (fun j _ => ⟨runningInfo, rfl, rfl⟩)⟩

/-- C9: session discovery filters the application list to RUNNING entries
with the requested name, fails on zero or on more than one match, and with
exactly one match returns its RPC address split at `:` into host and
port. -/
theorem session_discovery_exact_match (apps : List AppInfo) (name : String) :
    (apps.filter (fun x => x.state = "RUNNING" && x.name = name) = [] →
      get_running_app apps name =
        .error (.genericError
          s!"No app found with state=<RUNNING> and name=<{name}>"))
    ∧ (∀ a b rest,
      apps.filter (fun x => x.state = "RUNNING" && x.name = name) =
        a :: b :: rest →
      get_running_app apps name =
        .error (.genericError
          s!"More then one app found with state=<RUNNING> and name=<{name}>"))
    ∧ (∀ a, apps.filter (fun x => x.state = "RUNNING" && x.name = name) = [a] →
      get_running_app apps name = .ok a ∧
      ∀ h p, pySplit a.amRPCAddress ':' = [h, p] →
        find_address apps name = .ok ⟨h, p⟩) := by
  refine ⟨?_, ?_, ?_⟩
  · intro h
    simp [get_running_app, h]
  · intro a b rest h
    simp [get_running_app, h]
  · intro a h
    have hget : get_running_app apps name = .ok a := by
      simp [get_running_app, h]
    refine ⟨hget, ?_⟩
    intro hh pp hsplit
    have hfa : find_address apps name = build_rpc_address_info a := by
      unfold find_address
      rw [hget]
      rfl
    rw [hfa]
    unfold build_rpc_address_info
    rw [hsplit]

/-- Witness for C9: exactly one RUNNING app named `x` is returned and its
`10.0.0.1:9000` address parses to host `10.0.0.1`, port `9000`; no app
named `z` fails. -/
theorem session_discovery_exact_match_wit :
    get_running_app appsA "x" = .ok ⟨"RUNNING", "x", "10.0.0.1:9000"⟩ ∧
    find_address appsA "x" = .ok ⟨"10.0.0.1", "9000"⟩ ∧
    get_running_app appsA "z" =
      .error (.genericError "No app found with state=<RUNNING> and name=<z>") :=
  ⟨((session_discovery_exact_match appsA "x").2.2
      ⟨"RUNNING", "x", "10.0.0.1:9000"⟩ (by decide)).1,
   ((session_discovery_exact_match appsA "x").2.2
      ⟨"RUNNING", "x", "10.0.0.1:9000"⟩ (by decide)).2
      "10.0.0.1" "9000" (by decide),
   (session_discovery_exact_match appsA "z").1 (by decide)⟩

/-- C10: `_build_job_params` returns exactly the entries whose value is not
`None`, values unchanged — so the non-`None` falsy defaults
`allowNonRestoredState=False` and `parallelism=1` always appear in the
restore-parameter map of a stateful redeploy. -/
theorem build_job_params_keeps_non_none :
    (∀ (raw : List (String × Option PVal)) (k : String) (v : PVal),
      (k, v) ∈ build_job_params raw ↔ (k, some v) ∈ raw)
    ∧ (∀ (env : Env) (jarPath jid tdir : String) (p : List (String × PVal)),
      Event.runJob (some p) ∈
        (submit_job env jarPath (some tdir) (some jid)).2 →
      ("allowNonRestoredState", PVal.pb false) ∈ p ∧
      ("parallelism", PVal.pn 1) ∈ p) := by
  constructor
  · intro raw k v
    simp only [build_job_params, List.mem_filterMap]
    constructor
    · rintro ⟨⟨a, ob⟩, hmem, hab⟩
      simp only [Option.map_eq_some'] at hab
      obtain ⟨w, hw, hpair⟩ := hab
      cases hpair
      rw [← hw]
      exact hmem
    · intro hmem
      exact ⟨(k, some v), hmem, rfl⟩
  · intro env jarPath jid tdir p h
    obtain ⟨path, _, rfl⟩ :=
      submit_job_params_shape env jarPath jid tdir false 1 none none p h
    constructor <;> simp [build_job_params]

/-- Witness for C10: the defaults appear in the params of a concrete
stateful redeploy. -/
theorem build_job_params_keeps_non_none_wit :
    ("allowNonRestoredState", PVal.pb false) ∈
      [("allowNonRestoredState", PVal.pb false),
       ("parallelism", PVal.pn 1),
       ("savepointPath", PVal.ps "/sp/1")] ∧
    ("parallelism", PVal.pn 1) ∈
      [("allowNonRestoredState", PVal.pb false),
       ("parallelism", PVal.pn 1),
       ("savepointPath", PVal.ps "/sp/1")] :=
  build_job_params_keeps_non_none.2 envA "a.jar" "jid" "/td"
    [("allowNonRestoredState", PVal.pb false),
     ("parallelism", PVal.pn 1),
     ("savepointPath", PVal.ps "/sp/1")] (by decide)

end FlinkScrat
